import Mathlib

/-!
Verification of the signal-detection / queue-processing trading pipeline.

Shallow embedding of the Python sources:
  * `src/src/brokers/execution.py`        (position reconciliation)
  * `src/src/jobs/queue_worker.py`        (queue worker: parsing, poison handling, backoff)
  * `src/infra/monitoring/signal_detection.py` (indicator library + signal engine)
  * `src/infra/monitoring/market_calendar.py`  (market-hours calendar)
  * `src/infra/monitoring/function_app.py`     (validation monitor pass)

Python floats are modelled by exact rationals (`ℚ`), Python ints by `Int`
(`ℕ` where the source guarantees non-negativity).  Comparisons against
`math.sqrt` values are rendered as the equivalent exact comparisons of
squares, so every definition stays computable.
-/

set_option maxRecDepth 4000

/-! ## Python sequence helpers -/

/-- Clamp a (possibly negative) Python slice index for a list of length `n`
to the effective non-negative index, as Python slicing does. -/
def pySliceIdx (n : ℕ) (i : Int) : ℕ :=
  (max 0 (min (n : Int) (if i < 0 then (n : Int) + i else i))).toNat

/-- `pySlice l a b` is Python `l[a:b]` (step 1, negative indices allowed). -/
def pySlice (l : List α) (a b : Int) : List α :=
  let s := pySliceIdx l.length a
  let e := pySliceIdx l.length b
  (l.drop s).take (e - s)

/-- `pySliceFrom l a` is Python `l[a:]`. -/
def pySliceFrom (l : List α) (a : Int) : List α :=
  l.drop (pySliceIdx l.length a)

/-- Python `max` of a list of rationals (nonempty in all uses). -/
def listMax : List ℚ → ℚ
  | [] => 0
  | h :: t => t.foldl max h

/-- Python `min` of a list of rationals (nonempty in all uses). -/
def listMin : List ℚ → ℚ
  | [] => 0
  | h :: t => t.foldl min h

/-- Python `str.lower()` (per-character, as for the ASCII actions used). -/
def py_lower (s : String) : String := ⟨s.data.map Char.toLower⟩

/-- Python `str.upper()` (per-character). -/
def py_upper (s : String) : String := ⟨s.data.map Char.toUpper⟩

/-- Python `str.strip()`: drop leading and trailing whitespace. -/
def py_strip (s : String) : String :=
  ⟨((s.data.dropWhile Char.isWhitespace).reverse.dropWhile Char.isWhitespace).reverse⟩

/-- Round-half-even to an integer, as Python `round` does on exact values. -/
def roundHalfEven (q : ℚ) : ℤ :=
  let f := ⌊q⌋
  let r := q - (f : ℚ)
  if r < 1/2 then f
  else if 1/2 < r then f + 1
  else if Even f then f else f + 1

/-- Python `round(q, 2)` on exact rationals. -/
def roundTo2 (q : ℚ) : ℚ :=
  (roundHalfEven (q * 100) : ℚ) / 100

/-! ## Position reconciliation (`src/src/brokers/execution.py`) -/

/-- A current broker position, `{"long": int, "short": int, "side": str}`
as fetched by `PaperBroker.get_current_position`. -/
structure Position where
  long : Int
  short : Int
  side : String
deriving DecidableEq

/-- One reconciled sub-order `{"action", "quantity", "reasoning"}`. -/
structure Order where
  action : String
  quantity : Int
  reasoning : String
deriving DecidableEq

/-- The `action_intent` lookup table of `_reconcile_position`. -/
def action_intent (a : String) : Option String :=
  if a = "buy" then some "long"
  else if a = "sell" then some "reduce_long"
  else if a = "short" then some "short"
  else if a = "cover" then some "reduce_short"
  else none

/-- Embedding of `_reconcile_position` (execution.py lines 46-201). -/
def reconcile_position (_ticker : String) (current_position : Position)
    (desired_action : String) (desired_quantity : Int) : List Order :=
  let current_side := current_position.side
  let long_qty := current_position.long
  let short_qty := current_position.short
  let intent := action_intent (py_lower desired_action)
  if intent = some "long" then
    if current_side = "short" then
      [⟨"cover", short_qty,
        "Closing " ++ toString short_qty ++ " SHORT shares before opening LONG position"⟩,
       ⟨"buy", desired_quantity,
        "Opening " ++ toString desired_quantity ++ " LONG shares after closing SHORT"⟩]
    else if current_side = "long" then
      [⟨"buy", desired_quantity,
        "Adding " ++ toString desired_quantity ++ " shares to existing LONG " ++ toString long_qty⟩]
    else
      [⟨"buy", desired_quantity,
        "Opening " ++ toString desired_quantity ++ " LONG shares from flat position"⟩]
  else if intent = some "short" then
    if current_side = "long" then
      [⟨"sell", long_qty,
        "Closing " ++ toString long_qty ++ " LONG shares before opening SHORT position"⟩,
       ⟨"short", desired_quantity,
        "Opening " ++ toString desired_quantity ++ " SHORT shares after closing LONG"⟩]
    else if current_side = "short" then
      [⟨"short", desired_quantity,
        "Adding " ++ toString desired_quantity ++ " shares to existing SHORT " ++ toString short_qty⟩]
    else
      [⟨"short", desired_quantity,
        "Opening " ++ toString desired_quantity ++ " SHORT shares from flat position"⟩]
  else if intent = some "reduce_long" then
    if current_side = "long" then
      if desired_quantity ≤ long_qty then
        [⟨"sell", desired_quantity,
          "Selling " ++ toString desired_quantity ++ " from LONG " ++ toString long_qty⟩]
      else
        [⟨"sell", long_qty,
          "Selling all " ++ toString long_qty ++ " LONG shares (requested "
            ++ toString desired_quantity ++ ")"⟩]
    else
      []
  else if intent = some "reduce_short" then
    if current_side = "short" then
      if desired_quantity ≤ short_qty then
        [⟨"cover", desired_quantity,
          "Covering " ++ toString desired_quantity ++ " from SHORT " ++ toString short_qty⟩]
      else
        [⟨"cover", short_qty,
          "Covering all " ++ toString short_qty ++ " SHORT shares (requested "
            ++ toString desired_quantity ++ ")"⟩]
    else
      []
  else
    []

/-- The `(action, quantity)` shape of an emitted order list, for statements that
do not care about the human-readable reasoning string. -/
def orderShape (orders : List Order) : List (String × Int) :=
  orders.map (fun o => (o.action, o.quantity))

/-! ## Queue-worker backoff (`src/src/jobs/queue_worker.py` lines 458-463) -/

/-- Embedding of `QueueWorker._compute_backoff`: the jitter
`random.uniform(0, base)` is an explicit argument `jitter`. -/
def compute_backoff (base max_backoff : ℚ) (attempt : Int) (jitter : ℚ) : ℚ :=
  let capped_attempt := max 0 (attempt - 1)
  let delay := base * 2 ^ capped_attempt.toNat
  let delay := min delay max_backoff
  delay + jitter

/-- The backoff delay ignoring jitter, as a function of the attempt number. -/
def raw_backoff (base max_backoff : ℚ) (attempt : Int) : ℚ :=
  min (base * 2 ^ (max 0 (attempt - 1)).toNat) max_backoff

/-! ## Indicator library and signal engine (`src/infra/monitoring/signal_detection.py`)

Python floats become exact rationals.  The two indicator checks that compare
against `math.sqrt` values (`detect_vwap_deviation`, the Bollinger-extreme
test) are rendered as the equivalent exact comparisons of squares, so they
remain computable; everything else is a direct transcription. -/

/-- `models.Price`: one OHLCV bar. -/
structure Price where
  «open» : ℚ
  close : ℚ
  high : ℚ
  low : ℚ
  volume : Int
  time : String
deriving DecidableEq

/-- Placeholder bar used for list indexing that the source guards by length
checks before performing. -/
def dflt_price : Price := ⟨0, 0, 0, 0, 0, ""⟩

/-- `calculate_vwap` (signal_detection.py lines 24-34). -/
def calculate_vwap (prices : List Price) : ℚ :=
  if prices.isEmpty then 0
  else
    let total_volume : ℚ := (prices.map (fun p => (p.volume : ℚ))).sum
    if total_volume = 0 then 0
    else (prices.map (fun p => p.close * (p.volume : ℚ))).sum / total_volume

/-- `calculate_price_velocity` (lines 37-53). -/
def calculate_price_velocity (prices : List Price) (lookback_minutes : Int) : ℚ :=
  if prices.length < 2 then 0
  else
    let latest := prices.getLastD dflt_price
    let lookback_idx := (max 0 ((prices.length : Int) - lookback_minutes - 1)).toNat
    let previous := prices.getD lookback_idx dflt_price
    if previous.close = 0 then 0
    else
      let time_diff : ℚ := if 0 < lookback_minutes then (lookback_minutes : ℚ) else 1
      |latest.close - previous.close| / previous.close / time_diff

/-- `calculate_volume_velocity` (lines 56-67). -/
def calculate_volume_velocity (prices : List Price) : ℚ :=
  if prices.length < 10 then 1
  else
    let latest_volume : ℚ := ((prices.getLastD dflt_price).volume : ℚ)
    let avg_volume := ((pySlice prices (-10) (-1)).map (fun p => (p.volume : ℚ))).sum / 9
    if avg_volume = 0 then 1
    else latest_volume / avg_volume

/-- The per-bar true ranges `max(high-low, |high-prevClose|, |low-prevClose|)`
computed by `calculate_atr` for `i in range(1, len(prices))`. -/
def true_ranges (prices : List Price) : List ℚ :=
  List.zipWith
    (fun prev cur =>
      max (cur.high - cur.low) (max |cur.high - prev.close| |cur.low - prev.close|))
    prices prices.tail

/-- `calculate_atr` (lines 70-86). -/
def calculate_atr (prices : List Price) (period : Int) : ℚ :=
  if (prices.length : Int) < period + 1 then 0
  else
    let tr := true_ranges prices
    if tr.isEmpty then 0
    else (pySliceFrom tr (-period)).sum / ((min period (tr.length : Int) : Int) : ℚ)

/-- `calculate_rsi` (lines 89-125). -/
def calculate_rsi (prices : List Price) (period : Int) : ℚ :=
  if (prices.length : Int) < period + 1 then 50
  else
    let changes := List.zipWith (fun prev cur => cur.close - prev.close) prices prices.tail
    let gains := changes.map (fun c => if 0 < c then c else 0)
    let losses := changes.map (fun c => if 0 < c then 0 else |c|)
    let avg_gain := (pySliceFrom gains (-period)).sum / (period : ℚ)
    let avg_loss := (pySliceFrom losses (-period)).sum / (period : ℚ)
    if avg_loss = 0 then 100
    else
      let rs := avg_gain / avg_loss
      roundTo2 (100 - 100 / (1 + rs))

/-- `detect_gap` (lines 128-150). -/
def detect_gap (latest : Price) (previous_close : ℚ) (threshold : ℚ) : Option String :=
  if previous_close = 0 then none
  else
    let gap := (latest.«open» - previous_close) / previous_close
    if threshold ≤ gap then some "gap_up"
    else if gap ≤ -threshold then some "gap_down"
    else none

/-- `detect_intraday_breakout` (lines 153-178). -/
def detect_intraday_breakout (prices : List Price) (lookback_bars : Int) : Option String :=
  if (prices.length : Int) < lookback_bars + 1 then none
  else
    let historical := pySlice prices (-lookback_bars - 1) (-1)
    let latest := prices.getLastD dflt_price
    let intraday_high := listMax (historical.map (fun p => p.high))
    let intraday_low := listMin (historical.map (fun p => p.low))
    if intraday_high < latest.high then some "breakout_high"
    else if latest.low < intraday_low then some "breakout_low"
    else none

/-- Decides `d > t * Real.sqrt v` for `v > 0` by exact rational arithmetic
(used to render float comparisons against `math.sqrt` results). -/
def gtScaledSqrt (d t v : ℚ) : Bool :=
  if 0 ≤ t then 0 < d && t ^ 2 * v < d ^ 2
  else 0 ≤ d || d ^ 2 < t ^ 2 * v

/-- Decides `d ≥ t * Real.sqrt v` for `t ≥ 0`, `v ≥ 0`, by exact rational
arithmetic. -/
def geScaledSqrt (d t v : ℚ) : Bool :=
  0 ≤ d && t ^ 2 * v ≤ d ^ 2

/-- `detect_vwap_deviation` (lines 181-213).  The source computes
`std_dev = sqrt(variance)`, `z = (close - vwap)/std_dev if std_dev > 0 else 0`
and tests `z > threshold` / `z < -threshold`; those tests are decided here by
`gtScaledSqrt` without leaving ℚ. -/
def detect_vwap_deviation (prices : List Price) (std_threshold : ℚ) : Option String :=
  if prices.length < 20 then none
  else
    let vwap := calculate_vwap prices
    if vwap = 0 then none
    else
      let deviations := prices.map (fun p => p.close - vwap)
      let mean_deviation := deviations.sum / (deviations.length : ℚ)
      let variance := (deviations.map (fun d => (d - mean_deviation) ^ 2)).sum / (deviations.length : ℚ)
      let d := (prices.getLastD dflt_price).close - vwap
      if 0 < variance then
        if gtScaledSqrt d std_threshold variance then some "above_vwap"
        else if gtScaledSqrt (-d) std_threshold variance then some "below_vwap"
        else none
      else
        -- std_dev = 0: the source sets the z-score to 0
        if std_threshold < 0 then some "above_vwap"
        else if 0 < -std_threshold then some "below_vwap"
        else none

/-- The engine's Bollinger-extreme test
`calculate_bollinger_position(prices) <= 0.1 or >= 0.9` (lines 216-238 and
406-411), rendered exactly: with `s = sqrt(variance)` of the trailing
`period` closes, `position ≥ 0.9 ↔ close - mean ≥ 1.6·s` and
`position ≤ 0.1 ↔ mean - close ≥ 1.6·s`; when the bands collapse
(`variance = 0`) or fewer than `period` bars exist the source yields the
non-extreme position 0.5. -/
def bollinger_extreme (prices : List Price) (period : ℕ) : Bool :=
  if prices.length < period then false
  else
    let recent := pySliceFrom prices (-(period : Int))
    let closes := recent.map (fun p => p.close)
    let mean_price := closes.sum / (closes.length : ℚ)
    let variance := (closes.map (fun c => (c - mean_price) ^ 2)).sum / (closes.length : ℚ)
    let latest_price := (prices.getLastD dflt_price).close
    if 0 < variance then
      geScaledSqrt (latest_price - mean_price) (8/5) variance
        || geScaledSqrt (mean_price - latest_price) (8/5) variance
    else false

/-- `detect_volatility_expansion` (lines 241-266). -/
def detect_volatility_expansion (prices : List Price) (lookback : Int) (threshold : ℚ) : Bool :=
  if (prices.length : Int) < lookback * 2 then false
  else
    let recent_atr := calculate_atr (pySliceFrom prices (-lookback)) lookback
    let historical_atr := calculate_atr (pySlice prices (-lookback * 2) (-lookback)) lookback
    if historical_atr = 0 then false
    else threshold ≤ recent_atr / historical_atr

/-- `SignalResult` (lines 14-21).  The `metrics` dict is a display-only map of
rounded floats that no verified property mentions; it is omitted from the
embedding. -/
structure SignalResult where
  triggered : Bool
  reasons : List String
  confidence : ℚ
  priority : String
deriving DecidableEq

/-- The `(reason, per-check confidence score)` pairs appended by the eight
trigger checks of `enhanced_signal_detection` (lines 355-416), in source
order.  The source appends to the `reasons` and `confidence_scores` lists in
lockstep inside each check; here each check contributes zero or one pair. -/
def fired_checks (prices : List Price) (previous_day_close : Option ℚ)
    (percent_threshold volume_multiplier vwap_std_threshold velocity_threshold : ℚ) :
    List (String × ℚ) :=
  let latest := prices.getLastD dflt_price
  let previous := prices.getD (prices.length - 2) dflt_price
  -- 1. basic price change detection
  let c1 : List (String × ℚ) :=
    if 0 < previous.close then
      let percent_change := (latest.close - previous.close) / previous.close
      if percent_threshold ≤ |percent_change| then
        [("price_breakout", min (|percent_change| / percent_threshold) 1)]
      else []
    else []
  -- 2. volume analysis
  let c2 : List (String × ℚ) :=
    if 10 ≤ prices.length then
      let volume_ratio := calculate_volume_velocity prices
      if volume_multiplier ≤ volume_ratio then
        [("volume_spike", min (volume_ratio / volume_multiplier) 1 * 0.8)]
      else []
    else []
  -- 3. price velocity (rapid movement)
  let c3 : List (String × ℚ) :=
    let velocity := calculate_price_velocity prices 5
    if velocity_threshold ≤ velocity then
      [("rapid_movement", min (velocity / velocity_threshold) 1 * 0.9)]
    else []
  -- 4. gap detection (`if previous_day_close and previous_day_close > 0`)
  let c4 : List (String × ℚ) :=
    match previous_day_close with
    | none => []
    | some pdc =>
      if pdc ≠ 0 ∧ 0 < pdc then
        match detect_gap latest pdc 0.015 with
        | some gap_signal =>
          let gap_pct := |latest.«open» - pdc| / pdc
          [(gap_signal, min (gap_pct / 0.02) 1 * 0.95)]
        | none => []
      else []
  -- 5. intraday breakout
  let c5 : List (String × ℚ) :=
    match detect_intraday_breakout prices 78 with
    | some breakout_signal => [(breakout_signal, 0.85)]
    | none => []
  -- 6. VWAP deviation
  let c6 : List (String × ℚ) :=
    match detect_vwap_deviation prices vwap_std_threshold with
    | some vwap_signal => [(vwap_signal, 0.75)]
    | none => []
  -- 7. Bollinger-band position
  let c7 : List (String × ℚ) :=
    if bollinger_extreme prices 20 then [("bollinger_extreme", 0.7)] else []
  -- 8. volatility expansion
  let c8 : List (String × ℚ) :=
    if detect_volatility_expansion prices 20 1.5 then [("volatility_expansion", 0.8)] else []
  c1 ++ c2 ++ c3 ++ c4 ++ c5 ++ c6 ++ c7 ++ c8

/-- The engine's overall confidence before display rounding: arithmetic mean
of the contributing per-check scores (0 if none fired), capped at 1
(lines 424-426). -/
def overall_confidence_of (prices : List Price) (previous_day_close : Option ℚ)
    (percent_threshold volume_multiplier vwap_std_threshold velocity_threshold : ℚ) : ℚ :=
  let confidence_scores :=
    (fired_checks prices previous_day_close percent_threshold volume_multiplier
      vwap_std_threshold velocity_threshold).map Prod.snd
  min (if confidence_scores.isEmpty then 0
       else confidence_scores.sum / (confidence_scores.length : ℚ)) 1

/-- The priority tier as the spec states it: a function of the number of
reasons and the confidence (≥4 and >0.8 critical; ≥3 and >0.7 high;
≥2 and >0.6 medium; else low). -/
def priority_of (num_reasons : ℕ) (confidence : ℚ) : String :=
  if 4 ≤ num_reasons ∧ 0.8 < confidence then "critical"
  else if 3 ≤ num_reasons ∧ 0.7 < confidence then "high"
  else if 2 ≤ num_reasons ∧ 0.6 < confidence then "medium"
  else "low"

/-- `enhanced_signal_detection` (lines 315-445).  The unused `ticker`
argument is kept; the returned confidence is `round(overall_confidence, 2)`
as in the source. -/
def enhanced_signal_detection (_ticker : String) (prices : List Price)
    (previous_day_close : Option ℚ)
    (percent_threshold volume_multiplier vwap_std_threshold velocity_threshold : ℚ) :
    SignalResult :=
  if prices.length < 2 then
    { triggered := false, reasons := [], confidence := 0, priority := "low" }
  else
    let checks := fired_checks prices previous_day_close percent_threshold
      volume_multiplier vwap_std_threshold velocity_threshold
    let reasons := checks.map Prod.fst
    let confidence_scores := checks.map Prod.snd
    let overall_confidence :=
      if confidence_scores.isEmpty then 0
      else confidence_scores.sum / (confidence_scores.length : ℚ)
    let overall_confidence := min overall_confidence 1
    let priority :=
      if 4 ≤ reasons.length ∧ 0.8 < overall_confidence then "critical"
      else if 3 ≤ reasons.length ∧ 0.7 < overall_confidence then "high"
      else if 2 ≤ reasons.length ∧ 0.6 < overall_confidence then "medium"
      else "low"
    { triggered := decide (0 < reasons.length),
      reasons := reasons,
      confidence := roundTo2 overall_confidence,
      priority := priority }

/-- Claim-side rendering of the spec's ATR formula: mean of the last `period`
true ranges, or of all available true ranges if fewer are present. -/
def spec_atr (prices : List Price) (period : Int) : ℚ :=
  let tr := true_ranges prices
  let recent := pySliceFrom tr (-period)
  if recent.isEmpty then 0 else recent.sum / (recent.length : ℚ)

/-- Claim-side rendering of the spec's volatility-expansion rule: for at
least `2*lookback` bars, true iff ATR of the most recent `lookback` bars
divided by ATR of the preceding `lookback` bars is ≥ threshold. -/
def spec_volatility_expansion (prices : List Price) (lookback : Int) (threshold : ℚ) : Bool :=
  if (prices.length : Int) < lookback * 2 then false
  else
    let recent_atr := spec_atr (pySliceFrom prices (-lookback)) lookback
    let historical_atr := spec_atr (pySlice prices (-lookback * 2) (-lookback)) lookback
    threshold ≤ recent_atr / historical_atr

/-! ## Market calendar (`src/infra/monitoring/market_calendar.py`)

`is_market_open` first converts its argument to the `America/New_York` zone;
the embedding takes the resulting Eastern local calendar date and time of day
(seconds since local midnight) directly, the timezone conversion itself being
library behaviour. -/

/-- A proleptic-Gregorian calendar date, as Python `datetime.date`. -/
structure PlainDate where
  year : ℕ
  month : ℕ
  day : ℕ
deriving DecidableEq

/-- Gregorian leap-year test. -/
def is_leap_year (y : ℕ) : Bool :=
  y % 4 = 0 && (y % 100 ≠ 0 || y % 400 = 0)

/-- Days in the year strictly before month `m` (1-12), as Python's
`date` ordinal arithmetic. -/
def days_before_month (y m : ℕ) : ℕ :=
  [0, 0, 31, 59, 90, 120, 151, 181, 212, 243, 273, 304, 334].getD m 0
    + (if 2 < m && is_leap_year y then 1 else 0)

/-- Python `date.toordinal()`: day count with 0001-01-01 as day 1. -/
def toordinal (d : PlainDate) : ℕ :=
  365 * (d.year - 1) + (d.year - 1) / 4 - (d.year - 1) / 100 + (d.year - 1) / 400
    + days_before_month d.year d.month + d.day

/-- Python `date.weekday()`: Monday = 0 … Sunday = 6. -/
def weekday (d : PlainDate) : ℕ :=
  (toordinal d + 6) % 7

/-- `ALL_HOLIDAYS` (market_calendar.py lines 11-51): the 2024-2026 NYSE
holiday tables. -/
def all_holidays : List PlainDate :=
  [⟨2024, 1, 1⟩, ⟨2024, 1, 15⟩, ⟨2024, 2, 19⟩, ⟨2024, 3, 29⟩, ⟨2024, 5, 27⟩,
   ⟨2024, 6, 19⟩, ⟨2024, 7, 4⟩, ⟨2024, 9, 2⟩, ⟨2024, 11, 28⟩, ⟨2024, 12, 25⟩,
   ⟨2025, 1, 1⟩, ⟨2025, 1, 20⟩, ⟨2025, 2, 17⟩, ⟨2025, 4, 18⟩, ⟨2025, 5, 26⟩,
   ⟨2025, 6, 19⟩, ⟨2025, 7, 4⟩, ⟨2025, 9, 1⟩, ⟨2025, 11, 27⟩, ⟨2025, 12, 25⟩,
   ⟨2026, 1, 1⟩, ⟨2026, 1, 19⟩, ⟨2026, 2, 16⟩, ⟨2026, 4, 3⟩, ⟨2026, 5, 25⟩,
   ⟨2026, 6, 19⟩, ⟨2026, 7, 3⟩, ⟨2026, 9, 7⟩, ⟨2026, 11, 26⟩, ⟨2026, 12, 25⟩]

/-- `ALL_EARLY_CLOSE_DAYS` (lines 54-72). -/
def all_early_close_days : List PlainDate :=
  [⟨2024, 7, 3⟩, ⟨2024, 11, 29⟩, ⟨2024, 12, 24⟩,
   ⟨2025, 7, 3⟩, ⟨2025, 11, 28⟩, ⟨2025, 12, 24⟩,
   ⟨2026, 7, 2⟩, ⟨2026, 11, 27⟩, ⟨2026, 12, 24⟩]

/-- `is_market_holiday` (lines 75-77). -/
def is_market_holiday (check_date : PlainDate) : Bool :=
  all_holidays.contains check_date

/-- `is_early_close_day` (lines 80-82). -/
def is_early_close_day (check_date : PlainDate) : Bool :=
  all_early_close_days.contains check_date

/-- `get_market_close_time` (lines 122-126), as seconds since local
midnight: 13:00 on early-close days, 16:00 otherwise. -/
def get_market_close_time (check_date : PlainDate) : ℚ :=
  if is_early_close_day check_date then 46800 else 57600

/-- `is_market_open` (lines 85-119) on an Eastern local date and
time-of-day (seconds since midnight; 9:30 = 34200 s). -/
def is_market_open (d : PlainDate) (time_of_day : ℚ) : Bool :=
  if 5 ≤ weekday d then false          -- Saturday = 5, Sunday = 6
  else if is_market_holiday d then false
  else
    let market_open_time : ℚ := 34200  -- 9:30 AM ET
    let market_close_time : ℚ :=
      if is_early_close_day d then 46800 else 57600
    market_open_time ≤ time_of_day && time_of_day ≤ market_close_time

/-! ## Queue worker (`src/src/jobs/queue_worker.py`)

`QueueWorker.run` receives one message, deletes it, parses it and either
dead-letters it (poison) or processes it.  A message's decoded content is
either non-text or text, and text is either invalid JSON or parses to a JSON
value (`json.loads` is the standard library; only its outcome matters). -/

/-- A JSON value as produced by `json.loads`.  JSON numbers are modelled as
integers (no verified property involves fractional numeric payloads). -/
inductive Json where
  | null
  | bool (b : Bool)
  | num (n : Int)
  | str (s : String)
  | arr (items : List Json)
  | obj (fields : List (String × Json))

/-- Python truthiness of a parsed JSON value. -/
def pyTruthy : Json → Bool
  | .null => false
  | .bool b => b
  | .num n => n ≠ 0
  | .str s => s ≠ ""
  | .arr items => !items.isEmpty
  | .obj fields => !fields.isEmpty

/-- Python truthiness of `payload.get(k)` (absent key → `None` → falsy). -/
def optTruthy : Option Json → Bool
  | none => false
  | some j => pyTruthy j

/-- `payload.get(k)` on a JSON object's fields. -/
def jsonGet (fields : List (String × Json)) (k : String) : Option Json :=
  (fields.find? (fun kv => kv.1 = k)).map Prod.snd

/-- Python `a or b`: the first operand when truthy, else the second. -/
def pyOr (a b : Option Json) : Option Json :=
  if optTruthy a then a else b

def isJsonObj : Json → Bool
  | .obj _ => true
  | _ => false

mutual
/-- Python `repr` of a parsed JSON value (`repr(None) = "None"`, strings are
quoted, containers recurse). -/
def pyRepr : Json → String
  | .null => "None"
  | .bool b => if b then "True" else "False"
  | .num n => toString n
  | .str s => "\x27" ++ s ++ "\x27"
  | .arr items => "[" ++ pyReprList items ++ "]"
  | .obj fields => "\x7b" ++ pyReprFields fields ++ "\x7d"

def pyReprList : List Json → String
  | [] => ""
  | [j] => pyRepr j
  | j :: rest => pyRepr j ++ ", " ++ pyReprList rest

def pyReprFields : List (String × Json) → String
  | [] => ""
  | [(k, v)] => "\x27" ++ k ++ "\x27: " ++ pyRepr v
  | (k, v) :: rest => "\x27" ++ k ++ "\x27: " ++ pyRepr v ++ ", " ++ pyReprFields rest
end

/-- Python `str` of a parsed JSON value: the string itself for strings,
`repr`-style text otherwise. -/
def pyStr : Json → String
  | .str s => s
  | j => pyRepr j

/-- Outcome of evaluating a Python expression that may raise an exception the
worker does not catch as poison. -/
inductive ParseErr where
  | poison (reason : String)   -- `PoisonMessageError`
  | typeError                  -- iterating a non-iterable `tickers` value
deriving DecidableEq

/-- Python `for t in tickers`: lists iterate elements, dicts iterate keys,
strings iterate characters; other values raise `TypeError`. -/
def pyIterate : Json → Except ParseErr (List Json)
  | .arr items => .ok items
  | .obj fields => .ok (fields.map (fun kv => Json.str kv.1))
  | .str s => .ok (s.toList.map (fun c => Json.str (String.singleton c)))
  | _ => .error .typeError

/-- The decoded content of a received queue message: non-text, or text with
its `json.loads` outcome (`none` = `JSONDecodeError`). -/
inductive MsgContent where
  | nonText
  | text (parsed : Option Json)

/-- The payload `_parse_message` returns.  The `start_date`/`end_date`
fields are derived from the payload, the wall clock and environment defaults
(lines 295-319); that derivation cannot raise and is not modelled. -/
structure ParsedPayload where
  tickers : List String
  overrides : Json

/-- The `tickers` value `_parse_message` derives (lines 279-287): the
`tickers` field with a bare string wrapped into a one-element list, or else
the first truthy of `ticker`/`symbol`/`asset` wrapped into a one-element
list. -/
def derived_tickers_value (fields : List (String × Json)) : Option Json :=
  let tickers0 := jsonGet fields "tickers"
  let tickers1 : Option Json :=
    match tickers0 with
    | some (.str s) => some (.arr [.str s])
    | x => x
  if optTruthy tickers1 then tickers1
  else
    let ticker := pyOr (jsonGet fields "ticker")
      (pyOr (jsonGet fields "symbol") (jsonGet fields "asset"))
    if optTruthy ticker then some (.arr [ticker.getD .null]) else tickers1

/-- `[str(t).strip().upper() for t in tickers if str(t).strip()]`
(line 291). -/
def normalise_tickers (elems : List Json) : List String :=
  ((elems.map (fun t => py_strip (pyStr t))).filter (fun s => s ≠ "")).map py_upper

/-- `QueueWorker._parse_message` (lines 267-331). -/
def parse_message (m : MsgContent) : Except ParseErr ParsedPayload :=
  match m with
  | .nonText => .error (.poison "Queue message content must be text")
  | .text none => .error (.poison "Message content is not valid JSON")
  | .text (some payload) =>
    match payload with
    | .obj fields =>
      let tickers := derived_tickers_value fields
      if !optTruthy tickers then
        .error (.poison "Queue message must include tickers or a single ticker/symbol")
      else
        match pyIterate (tickers.getD .null) with
        | .error e => .error e
        | .ok elems =>
          let normalised_tickers := normalise_tickers elems
          if normalised_tickers.isEmpty then
            .error (.poison "Queue message included an empty ticker list")
          else
            let overrides0 := jsonGet fields "overrides"
            let overrides := if optTruthy overrides0 then overrides0.getD .null else .obj []
            if pyTruthy overrides && !isJsonObj overrides then
              .error (.poison "overrides must be a JSON object when provided")
            else
              .ok ⟨normalised_tickers, overrides⟩
    | _ => .error (.poison "Queue message payload must be a JSON object")

/-- What one `QueueWorker.run()` invocation did with the received message. -/
structure RunOutcome where
  returned : Option Bool               -- `none`: an exception escaped `run()`
  deadLettered : Bool                  -- `_dead_letter(message, ...)` was invoked
  processedPayload : Option ParsedPayload  -- argument of `_process_with_retries`, `none` if never called

/-- `QueueWorker.run` (lines 181-217) after a message has been received
(the no-message branch returns false and is outside every claim).  The
message is deleted immediately, then parsed; a `PoisonMessageError` is
dead-lettered with `run()` returning true, while any other exception
escapes.  `processRaises` abstracts whether the downstream processing
(`_process_with_retries`, which invokes the trade-decision collaborator)
raises; on raise the message is dead-lettered and `run()` still returns
true. -/
def queue_worker_run (m : MsgContent) (processRaises : ParsedPayload → Bool) : RunOutcome :=
  match parse_message m with
  | .error (.poison _) => ⟨some true, true, none⟩
  | .error .typeError => ⟨none, false, none⟩
  | .ok payload =>
    if processRaises payload then ⟨some true, true, some payload⟩
    else ⟨some true, false, some payload⟩

/-- Claim-side poison condition, following the claim's words under the
reading forced by the counterexample: content is not valid JSON, or is valid
JSON that is not an object, or the derived `tickers` value is absent or
falsy, or it is iterable but normalises to an empty ticker list. -/
def poison_input (m : MsgContent) : Bool :=
  match m with
  | .nonText => false
  | .text none => true
  | .text (some (.obj fields)) =>
    let t := derived_tickers_value fields
    if !optTruthy t then true
    else
      match pyIterate (t.getD .null) with
      | .ok elems => (normalise_tickers elems).isEmpty
      | .error _ => false
  | .text (some _) => true

/-- The claim's strict premise at a JSON-object payload: no `tickers` field
holding a non-empty JSON list, and no `ticker`/`symbol`/`asset` field. -/
def lacks_nonempty_tickers_list (fields : List (String × Json)) : Bool :=
  (match jsonGet fields "tickers" with
   | some (.arr items) => items.isEmpty
   | _ => true) &&
  (jsonGet fields "ticker").isNone &&
  (jsonGet fields "symbol").isNone &&
  (jsonGet fields "asset").isNone

/-! ## Validation pass (`src/infra/monitoring/function_app.py` lines 665-793)

Per confirmed candidate, `validation_monitor` fetches recent 5-minute bars
and, given at least 6 of them, computes a 0-100 validation score, rewrites
the candidate document's validation fields and status, upserts it back to
the store, and — when the score falls below the exit threshold and a queue
client is configured — sends an `exit_position` message.  The per-candidate
step is embedded as a pure function of the candidate document's fields, the
fetched bars, the exit threshold and whether a queue client is available. -/

/-- The fields of a confirmed fast-candidate document that the validation
scoring reads (`signal_doc.get("trigger_price", 0)`,
`signal_doc.get("instant_change", 0)`). -/
structure CandidateDoc where
  trigger_price : ℚ
  instant_change : ℚ
deriving DecidableEq

/-- `sum(1 if bars[i].close > bars[i-1].close else -1 for i in range(1, 6))`
(line 718). -/
def trend_sum (bars : List Price) : Int :=
  (([1, 2, 3, 4, 5] : List ℕ).map
    (fun i => if (bars.getD (i - 1) dflt_price).close < (bars.getD i dflt_price).close
              then (1 : Int) else -1)).sum

/-- The 0-100 validation score (lines 698-742): expected direction +30,
momentum continuation +20, RSI neutral +20, sustained volume +30. -/
def validation_score (doc : CandidateDoc) (bars : List Price) : Int :=
  let current_price := (bars.getLastD dflt_price).close
  let initial_direction := if 0 < doc.instant_change then "bullish" else "bearish"
  -- 1. price moved in expected direction? (+30)
  let s1 : Int :=
    if 0 < doc.trigger_price then
      let price_change := (current_price - doc.trigger_price) / doc.trigger_price
      if (initial_direction = "bullish" && 0 < price_change)
          || (initial_direction = "bearish" && price_change < 0) then 30 else 0
    else 0
  -- 2. momentum continuing? (+20)
  let s2 : Int :=
    if 6 ≤ bars.length then
      (if 3 ≤ (trend_sum bars).natAbs then 20 else 0)
    else 0
  -- 3. RSI confirms (not overbought/oversold)? (+20)
  let rsi := calculate_rsi bars 14
  let s3 : Int := if 30 < rsi ∧ rsi < 70 then 20 else 0
  -- 4. volume sustained? (+30)
  let recent_volume := ((pySliceFrom bars (-3)).map (fun b => (b.volume : ℚ))).sum / 3
  let earlier_volume := ((pySlice bars (-9) (-3)).map (fun b => (b.volume : ℚ))).sum / 6
  let s4 : Int :=
    if 0 < earlier_volume ∧ (0.8 : ℚ) ≤ recent_volume / earlier_volume then 30 else 0
  s1 + s2 + s3 + s4

/-- What the validation pass did with one candidate: the validation fields
written back to the store (always upserted), and whether an `exit_position`
message was sent. -/
structure ValidationOutcome where
  validation_score : Int
  status : String
  exit_signal_sent : Bool   -- the persisted `exit_signal_sent` document flag
  exitEnqueued : Bool       -- an `exit_position` message was sent to the queue
deriving DecidableEq

/-- The per-candidate body of `validation_monitor` (lines 679-787): skip
(`none`) without enough bars; otherwise score, decide
invalidated/validated, send the exit message when invalidated and a queue
client exists, and upsert the updated document. -/
def validation_step (doc : CandidateDoc) (bars : List Price)
    (exit_threshold : Int) (queueConfigured : Bool) : Option ValidationOutcome :=
  if bars.length < 6 then none
  else
    let score := validation_score doc bars
    if score < exit_threshold then
      some ⟨score, "invalidated", true, queueConfigured⟩
    else
      some ⟨score, "validated", false, false⟩

/-! ## Concrete sample inputs used by witnesses and counterexamples -/

/-- Four bars whose prior-window true range is 1 and recent-window true
range is 10 (fields: open, close, high, low, volume, time). -/
def vol_bars : List Price :=
  [⟨100, 100, 100, 100, 0, ""⟩, ⟨100, 100, 101, 100, 0, ""⟩,
   ⟨100, 100, 100, 100, 0, ""⟩, ⟨100, 100, 110, 100, 0, ""⟩]

/-- Two bars with a 3% close-to-close move. -/
def two_bars : List Price :=
  [⟨100, 100, 100, 100, 0, ""⟩, ⟨100, 103, 103, 100, 0, ""⟩]

/-- Six steadily rising bars with constant volume. -/
def sample_bars : List Price :=
  [⟨100, 100, 100, 100, 60, ""⟩, ⟨100, 101, 101, 100, 60, ""⟩,
   ⟨100, 102, 102, 100, 60, ""⟩, ⟨100, 103, 103, 100, 60, ""⟩,
   ⟨100, 104, 104, 100, 60, ""⟩, ⟨100, 105, 105, 100, 60, ""⟩]

/-- A confirmed candidate that triggered bullishly at price 100. -/
def sample_doc : CandidateDoc := ⟨100, 1/100⟩

/-- The bar repeated 19 times in `cex_bars`. -/
def cex_base : Price := ⟨100, 100, 100, 100, 0, ""⟩

/-- The final bar of `cex_bars`: a 10% close move, an open gapping 143/9500
above a previous close of 9500, zero volume. -/
def cex_last : Price := ⟨9643, 110, 110, 110, 0, ""⟩

/-- Twenty bars on which exactly four checks fire (price breakout 1, volume
spike 0.8, gap 0.715, Bollinger extreme 0.7), putting the capped mean
confidence at 643/800 = 0.80375 — strictly above 0.8 while rounding to
0.8. -/
def cex_bars : List Price :=
  [cex_base, cex_base, cex_base, cex_base, cex_base, cex_base, cex_base,
   cex_base, cex_base, cex_base, cex_base, cex_base, cex_base, cex_base,
   cex_base, cex_base, cex_base, cex_base, cex_base, cex_last]

/-! ## Theorems -/

/-- C1: when the desired action opposes the current side, reconciliation
emits exactly two sub-orders — flatten the entire opposing position, then
enter the desired quantity (`short` while long → [sell(all long),
short(desired)]; `buy` while short → [cover(all short), buy(desired)]);
when the action agrees with the current side or the position is flat it
emits the single order for the desired quantity. -/
theorem reconcile_flatten_then_enter (ticker : String) (pos : Position)
    (dq : Int) (hdq : 0 < dq) :
    (pos.side = "long" →
      orderShape (reconcile_position ticker pos "short" dq)
        = [("sell", pos.long), ("short", dq)]) ∧
    (pos.side = "short" →
      orderShape (reconcile_position ticker pos "buy" dq)
        = [("cover", pos.short), ("buy", dq)]) ∧
    (pos.side = "long" →
      orderShape (reconcile_position ticker pos "buy" dq) = [("buy", dq)]) ∧
    (pos.side = "short" →
      orderShape (reconcile_position ticker pos "short" dq) = [("short", dq)]) ∧
    (pos.side = "flat" →
      orderShape (reconcile_position ticker pos "buy" dq) = [("buy", dq)] ∧
      orderShape (reconcile_position ticker pos "short" dq) = [("short", dq)]) := by
  have hshort : action_intent (py_lower "short") = some "short" := by decide
  have hbuy : action_intent (py_lower "buy") = some "long" := by decide
  refine ⟨?_, ?_, ?_, ?_, ?_⟩ <;> intro hside
  · simp [reconcile_position, hshort, hside, orderShape]
  · simp [reconcile_position, hbuy, hside, orderShape]
  · simp [reconcile_position, hbuy, hside, orderShape]
  · simp [reconcile_position, hshort, hside, orderShape]
  · exact ⟨by simp [reconcile_position, hbuy, hside, orderShape],
      by simp [reconcile_position, hshort, hside, orderShape]⟩

/-- C1 witness: the spec's concrete scenario — position
`{long: 10, short: 0, side: "long"}`, action `"short"`, quantity 5 emits
exactly `[sell 10, short 5]` in that order. -/
theorem reconcile_flatten_then_enter_witness :
    orderShape (reconcile_position "AAPL" ⟨10, 0, "long"⟩ "short" 5)
      = [("sell", 10), ("short", 5)] :=
  (reconcile_flatten_then_enter "AAPL" ⟨10, 0, "long"⟩ 5 (by decide)).1 rfl

/-- C2: a `sell` request emits exactly `[sell(min(desired, long))]` when the
side is long and nothing otherwise; `cover` symmetrically for short; no
emitted sell/cover quantity ever exceeds the corresponding held quantity. -/
theorem reconcile_sell_cover_capped (ticker : String) (pos : Position)
    (dq : Int) (hdq : 0 < dq) :
    (pos.side = "long" →
      orderShape (reconcile_position ticker pos "sell" dq)
        = [("sell", min dq pos.long)]) ∧
    (pos.side ≠ "long" → reconcile_position ticker pos "sell" dq = []) ∧
    (pos.side = "short" →
      orderShape (reconcile_position ticker pos "cover" dq)
        = [("cover", min dq pos.short)]) ∧
    (pos.side ≠ "short" → reconcile_position ticker pos "cover" dq = []) ∧
    (∀ o ∈ reconcile_position ticker pos "sell" dq, o.quantity ≤ pos.long) ∧
    (∀ o ∈ reconcile_position ticker pos "cover" dq, o.quantity ≤ pos.short) := by
  have hsell : action_intent (py_lower "sell") = some "reduce_long" := by decide
  have hcover : action_intent (py_lower "cover") = some "reduce_short" := by decide
  refine ⟨?_, ?_, ?_, ?_, ?_, ?_⟩
  · intro hside
    by_cases h : dq ≤ pos.long
    · simp [reconcile_position, hsell, hside, orderShape, h, min_eq_left h]
    · simp [reconcile_position, hsell, hside, orderShape, h,
        min_eq_right (le_of_not_le h)]
  · intro hside
    simp [reconcile_position, hsell, hside]
  · intro hside
    by_cases h : dq ≤ pos.short
    · simp [reconcile_position, hcover, hside, orderShape, h, min_eq_left h]
    · simp [reconcile_position, hcover, hside, orderShape, h,
        min_eq_right (le_of_not_le h)]
  · intro hside
    simp [reconcile_position, hcover, hside]
  · intro o ho
    by_cases hside : pos.side = "long"
    · by_cases h : dq ≤ pos.long <;>
        simp [reconcile_position, hsell, hside, h] at ho <;>
        simp [ho]
      omega
    · simp [reconcile_position, hsell, hside] at ho
  · intro o ho
    by_cases hside : pos.side = "short"
    · by_cases h : dq ≤ pos.short <;>
        simp [reconcile_position, hcover, hside, h] at ho <;>
        simp [ho]
      omega
    · simp [reconcile_position, hcover, hside] at ho

/-- C2 witness: the spec's cap scenario — position
`{long: 3, short: 0, side: "long"}`, action `"sell"`, quantity 10 emits
exactly `[sell 3]`. -/
theorem reconcile_sell_cover_capped_witness :
    orderShape (reconcile_position "AAPL" ⟨3, 0, "long"⟩ "sell" 10)
      = [("sell", min 10 3)] :=
  (reconcile_sell_cover_capped "AAPL" ⟨3, 0, "long"⟩ 10 (by decide)).1 rfl

/-- C10: an action whose lowercase form is none of buy/sell/short/cover
makes reconciliation return the empty order list — a silent no-op. -/
theorem reconcile_unknown_action_noop (ticker : String) (pos : Position)
    (action : String) (dq : Int)
    (h : py_lower action ∉ (["buy", "sell", "short", "cover"] : List String)) :
    reconcile_position ticker pos action dq = [] := by
  have hnone : action_intent (py_lower action) = none := by
    simp only [List.mem_cons, List.mem_singleton, not_or] at h
    obtain ⟨h1, h2, h3, h4⟩ := h
    simp [action_intent, h1, h2, h3, h4]
  simp [reconcile_position, hnone]

/-- C10 witness: the `"hold"` action yields no orders for a concrete
position. -/
theorem reconcile_unknown_action_noop_witness :
    reconcile_position "AAPL" ⟨10, 0, "long"⟩ "hold" 5 = [] :=
  reconcile_unknown_action_noop "AAPL" ⟨10, 0, "long"⟩ "hold" 5 (by decide)

/-- C9: for every attempt `n ≥ 1` the computed retry delay equals
`min(base · 2^(n-1), max_backoff)` plus the jitter drawn from `[0, base]`;
ignoring jitter the delay is monotonically non-decreasing in the attempt
number; for `base = 2`, `max_backoff = 30` the attempt-5 delay is at most
`30 + 2`. -/
theorem backoff_formula_monotone_bounded (base max_backoff jitter : ℚ) (n : Int)
    (hn : 1 ≤ n) (hj0 : 0 ≤ jitter) (hjb : jitter ≤ base) (hb : 0 ≤ base) :
    compute_backoff base max_backoff n jitter
      = min (base * 2 ^ (n - 1).toNat) max_backoff + jitter ∧
    (∀ m : Int, 1 ≤ m →
      raw_backoff base max_backoff m ≤ raw_backoff base max_backoff (m + 1)) ∧
    (base = 2 → max_backoff = 30 → n = 5 →
      compute_backoff base max_backoff n jitter ≤ 30 + 2) := by
  refine ⟨?_, ?_, ?_⟩
  · have hmax : max 0 (n - 1) = n - 1 := max_eq_right (by omega)
    simp [compute_backoff, hmax]
  · intro m _hm
    unfold raw_backoff
    have hexp : (max 0 (m - 1)).toNat ≤ (max 0 (m + 1 - 1)).toNat := by omega
    have hpow : (2 : ℚ) ^ (max 0 (m - 1)).toNat ≤ 2 ^ (max 0 (m + 1 - 1)).toNat :=
      pow_le_pow_right one_le_two hexp
    exact min_le_min (mul_le_mul_of_nonneg_left hpow hb) le_rfl
  · intro h2 h30 h5
    subst h2; subst h30; subst h5
    have heq : compute_backoff 2 30 5 jitter = min (2 * 2 ^ (4 : ℕ)) 30 + jitter := by
      simp only [compute_backoff]
      rw [show (max 0 ((5 : Int) - 1)).toNat = 4 from rfl]
    rw [heq, show ((2 : ℚ) * 2 ^ (4 : ℕ)) = 32 from by norm_num,
      min_eq_right (by norm_num : (30 : ℚ) ≤ 32)]
    linarith

/-- C9 witness: `base = 2`, `max_backoff = 30`, attempt 5, jitter 1. -/
theorem backoff_formula_monotone_bounded_witness :
    compute_backoff 2 30 5 1 = min (2 * 2 ^ ((5 : Int) - 1).toNat) 30 + 1 :=
  (backoff_formula_monotone_bounded 2 30 1 5 (by decide) zero_le_one
    one_le_two zero_le_two).1

/-- C8: on Saturdays, Sundays and holidays `is_market_open` is false
regardless of the time of day; on every other day it is true exactly when
the time of day lies between the 9:30 open and that day's close (13:00
Eastern on early-close days, 16:00 otherwise). -/
theorem market_open_gate (d : PlainDate) (t : ℚ) :
    (5 ≤ weekday d ∨ is_market_holiday d = true → is_market_open d t = false) ∧
    (weekday d < 5 → is_market_holiday d = false →
      (is_market_open d t = true ↔ 34200 ≤ t ∧ t ≤ get_market_close_time d)) := by
  constructor
  · rintro (hw | hh)
    · simp [is_market_open, hw]
    · by_cases hw : 5 ≤ weekday d <;> simp [is_market_open, hw, hh]
  · intro hw hh
    have hw5 : ¬ 5 ≤ weekday d := by omega
    simp [is_market_open, hw5, hh, get_market_close_time]

/-- C8 witness: Christmas 2025 (a Thursday in the holiday table) at noon is
closed; Saturday 2025-01-04 at noon is closed; the regular Monday
2025-01-06 at 9:30 Eastern is open. -/
theorem market_open_gate_witness :
    is_market_open ⟨2025, 12, 25⟩ 43200 = false ∧
    is_market_open ⟨2025, 1, 4⟩ 43200 = false ∧
    is_market_open ⟨2025, 1, 6⟩ 34200 = true :=
  ⟨(market_open_gate ⟨2025, 12, 25⟩ 43200).1 (Or.inr (by decide)),
   (market_open_gate ⟨2025, 1, 4⟩ 43200).1 (Or.inl (by decide)),
   ((market_open_gate ⟨2025, 1, 6⟩ 34200).2 (by decide) (by decide)).mpr
     ⟨le_refl 34200,
      by norm_num [get_market_close_time,
        show is_early_close_day ⟨2025, 1, 6⟩ = false from by decide]⟩⟩

/-- C3 (amended): a received message whose content is not valid JSON, or is
valid JSON that is not an object, or whose derived `tickers` value is absent
or falsy, or normalises to an empty ticker list, is classified poison:
`run()` dead-letters it, never invokes the processing (and hence the
trade-decision collaborator), and returns true. -/
theorem queue_run_poison_deadletters (m : MsgContent) (f : ParsedPayload → Bool)
    (h : poison_input m = true) :
    queue_worker_run m f = ⟨some true, true, none⟩ := by
  match m with
  | .nonText => simp [poison_input] at h
  | .text none => rfl
  | .text (some (.null)) => rfl
  | .text (some (.bool b)) => rfl
  | .text (some (.num n)) => rfl
  | .text (some (.str s)) => rfl
  | .text (some (.arr items)) => rfl
  | .text (some (.obj fields)) =>
    simp only [poison_input] at h
    by_cases h1 : optTruthy (derived_tickers_value fields) = true
    · simp only [h1, Bool.not_true, Bool.false_eq_true, if_false] at h
      cases hit : pyIterate ((derived_tickers_value fields).getD .null) with
      | error e => rw [hit] at h; simp at h
      | ok elems =>
        rw [hit] at h
        simp at h
        simp only [queue_worker_run, parse_message, h1, Bool.not_true,
          Bool.false_eq_true, if_false, hit]
        simp [h]
    · have h1f : optTruthy (derived_tickers_value fields) = false :=
        Bool.not_eq_true _ ▸ Bool.eq_false_iff.mpr h1
      simp only [queue_worker_run, parse_message, h1f, Bool.not_false, if_true]

/-- C3 witness: a message whose `tickers` list holds only a blank string
normalises to an empty ticker list and is dead-lettered with `run()`
returning true and processing never invoked. -/
theorem queue_run_poison_deadletters_witness :
    queue_worker_run (.text (some (.obj [("tickers", Json.arr [Json.str " "])])))
      (fun _ => true) = ⟨some true, true, none⟩ :=
  queue_run_poison_deadletters
    (.text (some (.obj [("tickers", Json.arr [Json.str " "])]))) (fun _ => true)
    (by decide)

/-- C3 counterexample: the payload `{"tickers": 5}` lacks a non-empty
`tickers` list and every singular ticker field, yet `run()` does not
dead-letter it and does not return true — iterating the number raises
`TypeError`, which escapes `run()`. -/
theorem queue_run_poison_counterexample :
    lacks_nonempty_tickers_list [("tickers", Json.num 5)] = true ∧
    queue_worker_run (.text (some (.obj [("tickers", Json.num 5)])))
      (fun _ => true) = ⟨none, false, none⟩ := by
  constructor
  · decide
  · rfl

/-- C7: with at least 6 bars, the validation pass computes a 0-100 score
from the four weighted checks and persists updated validation fields with
status `invalidated` (enqueueing an `exit_position` message) when the score
is below the exit threshold, and status `validated` otherwise. -/
theorem validation_score_and_transition (doc : CandidateDoc) (bars : List Price)
    (exit_threshold : Int) (h : 6 ≤ bars.length) :
    0 ≤ validation_score doc bars ∧ validation_score doc bars ≤ 100 ∧
    (validation_score doc bars < exit_threshold →
      validation_step doc bars exit_threshold true
        = some ⟨validation_score doc bars, "invalidated", true, true⟩) ∧
    (exit_threshold ≤ validation_score doc bars →
      validation_step doc bars exit_threshold true
        = some ⟨validation_score doc bars, "validated", false, false⟩) := by
  have hbounds : 0 ≤ validation_score doc bars ∧ validation_score doc bars ≤ 100 := by
    simp only [validation_score]
    split_ifs <;> omega
  refine ⟨hbounds.1, hbounds.2, ?_, ?_⟩
  · intro hlt
    simp only [validation_step, if_neg (by omega : ¬ bars.length < 6), if_pos hlt]
  · intro hge
    simp only [validation_step, if_neg (by omega : ¬ bars.length < 6),
      if_neg (not_lt.mpr hge)]

/-- C7 witness: the sample candidate and bars are validated at threshold 0
and invalidated (with exit enqueued) at threshold 101. -/
theorem validation_score_and_transition_witness :
    validation_step sample_doc sample_bars 0 true
      = some ⟨validation_score sample_doc sample_bars, "validated", false, false⟩ ∧
    validation_step sample_doc sample_bars 101 true
      = some ⟨validation_score sample_doc sample_bars, "invalidated", true, true⟩ :=
  ⟨(validation_score_and_transition sample_doc sample_bars 0 (by decide)).2.2.2
      ((validation_score_and_transition sample_doc sample_bars 0 (by decide)).1),
   (validation_score_and_transition sample_doc sample_bars 101 (by decide)).2.2.1
      (lt_of_le_of_lt
        ((validation_score_and_transition sample_doc sample_bars 101 (by decide)).2.1)
        (by decide))⟩

/-- C6 (code bug): `detect_volatility_expansion` can never return true — it
hands `calculate_atr` exactly `lookback` bars with `period = lookback`, so
both window ATRs are the insufficient-history sentinel 0 and the
`historical_atr == 0` guard fires.  On `vol_bars` (recent true range 10,
prior true range 1, ratio 10 ≥ 1.5) the spec formula says true while the
code returns false. -/
theorem volatility_expansion_never_fires :
    (∀ (prices : List Price) (lookback : Int) (threshold : ℚ), 1 ≤ lookback →
      detect_volatility_expansion prices lookback threshold = false) ∧
    spec_volatility_expansion vol_bars 2 1.5 = true ∧
    detect_volatility_expansion vol_bars 2 1.5 = false := by
  have huniv : ∀ (prices : List Price) (lookback : Int) (threshold : ℚ),
      1 ≤ lookback → detect_volatility_expansion prices lookback threshold = false := by
    intro prices lb th hlb
    simp only [detect_volatility_expansion]
    split_ifs with hlen hz
    · rfl
    · rfl
    · exfalso
      apply hz
      push_neg at hlen
      have hhist : ((pySlice prices (-lb * 2) (-lb)).length : Int) = lb := by
        simp only [pySlice, pySliceIdx, List.length_take, List.length_drop]
        omega
      simp only [calculate_atr]
      rw [if_pos (by omega)]
  refine ⟨huniv, ?_, huniv vol_bars 2 1.5 one_le_two⟩
  norm_num [spec_volatility_expansion, spec_atr, true_ranges, vol_bars,
    pySlice, pySliceFrom, pySliceIdx, Int.toNat_ofNat, List.zipWith,
    List.sum_cons, List.sum_nil]

/-- C6 witness: the universal dead-code fact applied at a concrete input. -/
theorem volatility_expansion_never_fires_witness :
    detect_volatility_expansion [] 1 1 = false :=
  volatility_expansion_never_fires.1 [] 1 1 (by decide)

/-- C4: every returned `SignalResult` has `triggered` true exactly when the
reasons list is non-empty, and its priority tier is the stated deterministic
function of the number of reasons and the overall confidence (the capped
mean the engine computes; the returned `confidence` field is that value
rounded to two decimals). -/
theorem signal_result_invariant (ticker : String) (prices : List Price)
    (previous_day_close : Option ℚ) (pt vm vst vt : ℚ) :
    ((enhanced_signal_detection ticker prices previous_day_close pt vm vst vt).triggered
        = true ↔
      (enhanced_signal_detection ticker prices previous_day_close pt vm vst vt).reasons
        ≠ []) ∧
    (enhanced_signal_detection ticker prices previous_day_close pt vm vst vt).priority
      = priority_of
          (enhanced_signal_detection ticker prices previous_day_close pt vm vst vt).reasons.length
          (overall_confidence_of prices previous_day_close pt vm vst vt) := by
  by_cases hlen : prices.length < 2
  · simp [enhanced_signal_detection, hlen, priority_of]
  · constructor
    · simp [enhanced_signal_detection, if_neg hlen, List.length_pos]
    · simp only [enhanced_signal_detection, if_neg hlen, overall_confidence_of,
        priority_of]

/-- Every per-check confidence score appended by a fired check lies in
`[0, 1]` when the three scaling thresholds are positive. -/
lemma fired_checks_score_bounds (prices : List Price) (pdc : Option ℚ)
    (pt vm vst vt : ℚ) (hpt : 0 < pt) (hvm : 0 < vm) (hvt : 0 < vt) :
    ∀ rs ∈ fired_checks prices pdc pt vm vst vt, 0 ≤ rs.2 ∧ rs.2 ≤ 1 := by
  intro rs hmem
  simp only [fired_checks, List.mem_append] at hmem
  rcases hmem with (((((((h | h) | h) | h) | h) | h) | h) | h)
  · -- price_breakout: score min(|pc|/pt, 1)
    split at h
    · split at h
      · obtain rfl := List.mem_singleton.mp h
        exact ⟨le_min (div_nonneg (abs_nonneg _) hpt.le) zero_le_one,
          min_le_right _ _⟩
      · simp at h
    · simp at h
  · -- volume_spike: score min(ratio/vm, 1) * 0.8, fired only when vm ≤ ratio
    split at h
    · split at h
      · rename_i hcond
        obtain rfl := List.mem_singleton.mp h
        have hx : (0 : ℚ) ≤ calculate_volume_velocity prices / vm :=
          div_nonneg (le_trans hvm.le hcond) hvm.le
        exact ⟨mul_nonneg (le_min hx zero_le_one) (by norm_num),
          mul_le_one (min_le_right _ _) (by norm_num) (by norm_num)⟩
      · simp at h
    · simp at h
  · -- rapid_movement: score min(velocity/vt, 1) * 0.9, fired only when vt ≤ velocity
    split at h
    · rename_i hcond
      obtain rfl := List.mem_singleton.mp h
      have hx : (0 : ℚ) ≤ calculate_price_velocity prices 5 / vt :=
        div_nonneg (le_trans hvt.le hcond) hvt.le
      exact ⟨mul_nonneg (le_min hx zero_le_one) (by norm_num),
        mul_le_one (min_le_right _ _) (by norm_num) (by norm_num)⟩
    · simp at h
  · -- gap: score min(gap_pct/0.02, 1) * 0.95 with gap_pct ≥ 0
    split at h
    · simp at h
    · split at h
      · rename_i hcond
        split at h
        · obtain rfl := List.mem_singleton.mp h
          refine ⟨mul_nonneg (le_min ?_ zero_le_one) (by norm_num),
            mul_le_one (min_le_right _ _) (by norm_num) (by norm_num)⟩
          exact div_nonneg (div_nonneg (abs_nonneg _) hcond.2.le) (by norm_num)
        · simp at h
      · simp at h
  · -- intraday breakout: flat 0.85
    split at h
    · obtain rfl := List.mem_singleton.mp h
      exact ⟨by norm_num, by norm_num⟩
    · simp at h
  · -- VWAP deviation: flat 0.75
    split at h
    · obtain rfl := List.mem_singleton.mp h
      exact ⟨by norm_num, by norm_num⟩
    · simp at h
  · -- Bollinger extreme: flat 0.7
    split at h
    · obtain rfl := List.mem_singleton.mp h
      exact ⟨by norm_num, by norm_num⟩
    · simp at h
  · -- volatility expansion: flat 0.8
    split at h
    · obtain rfl := List.mem_singleton.mp h
      exact ⟨by norm_num, by norm_num⟩
    · simp at h

/-- The capped mean of a list of `[0, 1]`-valued scores lies in `[0, 1]`. -/
lemma capped_mean_bounds (l : List ℚ) (h : ∀ x ∈ l, 0 ≤ x ∧ x ≤ 1) :
    0 ≤ min (if l.isEmpty then 0 else l.sum / (l.length : ℚ)) 1 ∧
    min (if l.isEmpty then 0 else l.sum / (l.length : ℚ)) 1 ≤ 1 := by
  refine ⟨le_min ?_ zero_le_one, min_le_right _ _⟩
  split_ifs with he
  · exact le_refl 0
  · have hne : l ≠ [] := by simpa [List.isEmpty_iff] using he
    have hlen : (0 : ℚ) < (l.length : ℚ) :=
      Nat.cast_pos.mpr (List.length_pos.mpr hne)
    exact div_nonneg (List.sum_nonneg (fun x hx => (h x hx).1)) hlen.le

/-- Round-half-even of a value in `[0, 100]` stays in `[0, 100]`. -/
lemma roundHalfEven_bounds (x : ℚ) (h0 : 0 ≤ x) (h100 : x ≤ 100) :
    0 ≤ roundHalfEven x ∧ roundHalfEven x ≤ 100 := by
  simp only [roundHalfEven]
  have hf0 : (0 : ℤ) ≤ ⌊x⌋ := Int.floor_nonneg.mpr h0
  have hfle : (⌊x⌋ : ℚ) ≤ x := Int.floor_le x
  have hf100 : ⌊x⌋ ≤ 100 := by
    have := Int.floor_le_floor h100
    simpa using this
  split_ifs with hr1 hr2 hev
  · exact ⟨hf0, hf100⟩
  · have hq : (⌊x⌋ : ℚ) < 100 := by linarith
    have h99 : ⌊x⌋ < 100 := by exact_mod_cast hq
    exact ⟨by omega, by omega⟩
  · exact ⟨hf0, hf100⟩
  · have hr : x - (⌊x⌋ : ℚ) = 1/2 := le_antisymm (not_lt.mp hr2) (not_lt.mp hr1)
    have hq : (⌊x⌋ : ℚ) < 100 := by linarith
    have h99 : ⌊x⌋ < 100 := by exact_mod_cast hq
    exact ⟨by omega, by omega⟩

/-- `roundTo2` of a value in `[0, 1]` stays in `[0, 1]`. -/
lemma roundTo2_bounds (q : ℚ) (h0 : 0 ≤ q) (h1 : q ≤ 1) :
    0 ≤ roundTo2 q ∧ roundTo2 q ≤ 1 := by
  have hb := roundHalfEven_bounds (q * 100) (by linarith) (by linarith)
  unfold roundTo2
  constructor
  · have : (0 : ℚ) ≤ (roundHalfEven (q * 100) : ℚ) := by exact_mod_cast hb.1
    linarith
  · have : ((roundHalfEven (q * 100) : ℚ)) ≤ 100 := by exact_mod_cast hb.2
    linarith

/-- C5: fewer than 2 bars yields the neutral empty result; with at least 2
bars (and positive scaling thresholds) the engine's overall confidence is
the capped arithmetic mean of the fired checks' scores, lies in `[0, 1]`,
and the returned confidence field is its 2-decimal rounding, also in
`[0, 1]`. -/
theorem signal_confidence_mean (ticker : String) (prices : List Price)
    (previous_day_close : Option ℚ) (pt vm vst vt : ℚ) :
    (prices.length < 2 →
      enhanced_signal_detection ticker prices previous_day_close pt vm vst vt
        = { triggered := false, reasons := [], confidence := 0, priority := "low" }) ∧
    (2 ≤ prices.length →
      (enhanced_signal_detection ticker prices previous_day_close pt vm vst vt).confidence
          = roundTo2 (overall_confidence_of prices previous_day_close pt vm vst vt)) ∧
    (0 < pt → 0 < vm → 0 < vt →
      0 ≤ overall_confidence_of prices previous_day_close pt vm vst vt ∧
      overall_confidence_of prices previous_day_close pt vm vst vt ≤ 1 ∧
      (2 ≤ prices.length →
        0 ≤ (enhanced_signal_detection ticker prices previous_day_close pt vm vst vt).confidence ∧
        (enhanced_signal_detection ticker prices previous_day_close pt vm vst vt).confidence ≤ 1)) := by
  have hconf_eq : 2 ≤ prices.length →
      (enhanced_signal_detection ticker prices previous_day_close pt vm vst vt).confidence
        = roundTo2 (overall_confidence_of prices previous_day_close pt vm vst vt) := by
    intro h2
    have hlen : ¬ prices.length < 2 := by omega
    simp only [enhanced_signal_detection, if_neg hlen, overall_confidence_of]
  refine ⟨?_, hconf_eq, ?_⟩
  · intro h
    simp [enhanced_signal_detection, h]
  · intro hpt hvm hvt
    have hscores := fired_checks_score_bounds prices previous_day_close pt vm vst vt hpt hvm hvt
    have hmem : ∀ x ∈ (fired_checks prices previous_day_close pt vm vst vt).map Prod.snd,
        0 ≤ x ∧ x ≤ 1 := by
      intro x hx
      obtain ⟨rs, hrs, rfl⟩ := List.mem_map.mp hx
      exact hscores rs hrs
    have hmean := capped_mean_bounds
      ((fired_checks prices previous_day_close pt vm vst vt).map Prod.snd) hmem
    have hov0 : 0 ≤ overall_confidence_of prices previous_day_close pt vm vst vt := by
      simp only [overall_confidence_of]
      exact hmean.1
    have hov1 : overall_confidence_of prices previous_day_close pt vm vst vt ≤ 1 := by
      simp only [overall_confidence_of]
      exact hmean.2
    have hr := roundTo2_bounds _ hov0 hov1
    exact ⟨hov0, hov1, fun h2 => ⟨hconf_eq h2 ▸ hr.1, hconf_eq h2 ▸ hr.2⟩⟩

/-- C5 witness: the empty bar list yields the neutral result, and on two
concrete bars with unit thresholds the confidence field is the rounded
capped mean, which is non-negative. -/
theorem signal_confidence_mean_witness :
    enhanced_signal_detection "AAPL" [] none 1 1 1 1
      = { triggered := false, reasons := [], confidence := 0, priority := "low" } ∧
    (enhanced_signal_detection "AAPL" two_bars none 1 1 1 1).confidence
      = roundTo2 (overall_confidence_of two_bars none 1 1 1 1) ∧
    0 ≤ overall_confidence_of two_bars none 1 1 1 1 :=
  ⟨(signal_confidence_mean "AAPL" [] none 1 1 1 1).1 (by decide),
   (signal_confidence_mean "AAPL" two_bars none 1 1 1 1).2.1 (by decide),
   ((signal_confidence_mean "AAPL" two_bars none 1 1 1 1).2.2
      zero_lt_one zero_lt_one zero_lt_one).1⟩

/-- On `cex_bars` exactly four checks fire, with scores 1, 0.8, 0.715 and
0.7. -/
lemma cex_fired_checks :
    fired_checks cex_bars (some 9500) (1/50) 1 1000 1
      = [("price_breakout", 1), ("volume_spike", 4/5),
         ("gap_up", 143/200), ("bollinger_extreme", 7/10)] := by
  have hlat : cex_bars.getLastD dflt_price = cex_last := by decide
  have hprev : cex_bars.getD (cex_bars.length - 2) dflt_price = cex_base := by decide
  have hvv : calculate_volume_velocity cex_bars = 1 := by
    have hsl : (pySlice cex_bars (-10) (-1)).map (fun p => (p.volume : ℚ))
        = [0, 0, 0, 0, 0, 0, 0, 0, 0] := by decide
    simp only [calculate_volume_velocity, hsl]
    norm_num
  have hvel : calculate_price_velocity cex_bars 5 = 1/50 := by
    have hidx : cex_bars.getD
        ((max 0 ((cex_bars.length : Int) - 5 - 1)).toNat) dflt_price = cex_base := by
      decide
    simp only [calculate_price_velocity, hidx, hlat]
    norm_num [cex_base, cex_last, cex_bars]
  have hgap : detect_gap cex_last 9500 0.015 = some "gap_up" := by
    simp only [detect_gap, cex_last]
    norm_num
  have hbrk : detect_intraday_breakout cex_bars 78 = none := by
    simp only [detect_intraday_breakout]
    norm_num [cex_bars]
  have hvwap : detect_vwap_deviation cex_bars 1000 = none := by
    have hv0 : calculate_vwap cex_bars = 0 := by
      have hm : cex_bars.map (fun p => (p.volume : ℚ))
          = List.replicate 20 (0 : ℚ) := by decide
      simp only [calculate_vwap, hm]
      norm_num [List.sum_replicate]
    simp only [detect_vwap_deviation, hv0]
    norm_num [cex_bars]
  have hboll : bollinger_extreme cex_bars 20 = true := by
    have hsl : pySliceFrom cex_bars (-((20 : ℕ) : Int)) = cex_bars := by decide
    have hlast : cex_bars.getLast?.getD dflt_price = cex_last := by decide
    simp only [bollinger_extreme, hsl, hlast, List.getLastD_eq_getLast?]
    norm_num [cex_bars, cex_base, cex_last, geScaledSqrt]
  have hvolx : detect_volatility_expansion cex_bars 20 1.5 = false := by
    simp only [detect_volatility_expansion]
    norm_num [cex_bars]
  simp only [fired_checks, hlat, hprev, hvv, hvel, hgap, hbrk, hvwap, hboll, hvolx]
  norm_num [cex_base, cex_last, cex_bars, abs_of_pos, inf_eq_min, min_def]

/-- C4 counterexample: on `cex_bars` the engine returns priority
`"critical"` (the unrounded mean 0.80375 exceeds 0.8) while the claimed
function of `len(reasons)` and the returned rounded `confidence` field 0.8
yields `"high"`. -/
theorem signal_priority_rounding_counterexample :
    (enhanced_signal_detection "AAPL" cex_bars (some 9500) (1/50) 1 1000 1).priority
        = "critical" ∧
    priority_of
        (enhanced_signal_detection "AAPL" cex_bars (some 9500) (1/50) 1 1000 1).reasons.length
        (enhanced_signal_detection "AAPL" cex_bars (some 9500) (1/50) 1 1000 1).confidence
      = "high" := by
  have hfloor : ⌊(643 / 8 : ℚ)⌋ = 80 := by
    rw [Int.floor_eq_iff]
    constructor <;> norm_num
  have hres : enhanced_signal_detection "AAPL" cex_bars (some 9500) (1/50) 1 1000 1
      = { triggered := true,
          reasons := ["price_breakout", "volume_spike", "gap_up", "bollinger_extreme"],
          confidence := 4/5, priority := "critical" } := by
    simp only [enhanced_signal_detection, cex_fired_checks]
    norm_num [cex_bars, roundTo2, roundHalfEven, hfloor]
  rw [hres]
  norm_num [priority_of]
